import Mathlib

/-!
Verification of the financial-literacy pages (balance sheet, P&L, ratios).

Each definition is a shallow embedding of the corresponding Python function or
inline expression from the repository.  Currency amounts entered through
`st.number_input` are modelled as rationals (`ℚ`); the inputs are exact decimal
values, so no floating-point rounding is involved at the inputs we evaluate.
Python float division raising `ZeroDivisionError` on a zero denominator is
modelled by an `Option`-valued division, used only where the source divides
without a guard.
-/

namespace FinRatio

/-! Source file: balance_sheet_learn.py -/

/-- Python `check_balance(assets, liabilities, equity)` from balance_sheet_learn.py:
`abs(assets - (liabilities + equity)) < 1`. -/
def check_balance (assets liabilities equity : ℚ) : Bool :=
  decide (|assets - (liabilities + equity)| < 1)

/-- Learn-mode `total_assets = cash + accounts_receivable + inventory + ppe + intangible_assets`. -/
def total_assets (cash accounts_receivable inventory ppe intangible_assets : ℚ) : ℚ :=
  cash + accounts_receivable + inventory + ppe + intangible_assets

/-- Learn-mode `total_liabilities = accounts_payable + short_term_debt + long_term_debt`. -/
def total_liabilities (accounts_payable short_term_debt long_term_debt : ℚ) : ℚ :=
  accounts_payable + short_term_debt + long_term_debt

/-- Learn-mode `total_equity = share_capital + retained_earnings`. -/
def total_equity (share_capital retained_earnings : ℚ) : ℚ :=
  share_capital + retained_earnings

/-- One entry appended by `get_balance_tips`.  Each constructor models one
`tips.append(...)` of the source; where the appended markdown string
interpolates `abs(difference)`, the constructor carries that amount (the
currency formatting itself is presentation-layer). -/
inductive Tip where
  | assetsHigher (amount : ℚ)        -- "Assets are $X higher ..."
  | liabEquityHigher (amount : ℚ)    -- "Liabilities + Equity are $X higher ..."
  | toBalanceHeader                  -- "To balance, you can:"
  | addToLiabilities (amount : ℚ)    -- "Add $X to Liabilities (take a loan)"
  | addToEquity (amount : ℚ)         -- "Add $X to Equity (invest more capital)"
  | reduceAssets (amount : ℚ)        -- "Reduce Assets by $X ..."
  | addToAssets (amount : ℚ)         -- "Add $X to Assets ..."
  | reduceLiabilities (amount : ℚ)   -- "Reduce Liabilities by $X (pay off debt)"
  | reduceEquity (amount : ℚ)        -- "Reduce Equity by $X (pay dividends ...)"
  | combination                      -- "Or use a combination of the above!"
deriving DecidableEq, Repr

/-- Python `get_balance_tips(assets, liabilities, equity)` from balance_sheet_learn.py,
entry for entry in source order. -/
def get_balance_tips (assets liabilities equity : ℚ) : List Tip :=
  let difference := assets - (liabilities + equity)
  if difference > 0 then
    [Tip.assetsHigher |difference|, Tip.toBalanceHeader,
     Tip.addToLiabilities |difference|, Tip.addToEquity |difference|,
     Tip.reduceAssets |difference|, Tip.combination]
  else if difference < 0 then
    [Tip.liabEquityHigher |difference|, Tip.toBalanceHeader,
     Tip.addToAssets |difference|, Tip.reduceLiabilities |difference|,
     Tip.reduceEquity |difference|, Tip.combination]
  else []

/-- The remediation levers among a tip list: the constructors that name an
account to change together with an amount (headers and the "combination"
closer are not levers). -/
def leverTips (tips : List Tip) : List Tip :=
  tips.filter fun t =>
    match t with
    | Tip.addToLiabilities _ => true
    | Tip.addToEquity _ => true
    | Tip.reduceAssets _ => true
    | Tip.addToAssets _ => true
    | Tip.reduceLiabilities _ => true
    | Tip.reduceEquity _ => true
    | _ => false

/-! Source file: financial_ratio_learn.py -/

/-- Source: `current_ratio = current_assets / current_liabilities if current_liabilities > 0 else 0`. -/
def current_ratio (current_assets current_liabilities : ℚ) : ℚ :=
  if current_liabilities > 0 then current_assets / current_liabilities else 0

/-- Source: `quick_ratio = (current_assets - inventory) / current_liabilities if current_liabilities > 0 else 0`. -/
def quick_ratio (current_assets inventory current_liabilities : ℚ) : ℚ :=
  if current_liabilities > 0 then (current_assets - inventory) / current_liabilities else 0

/-- Source: `debt_to_equity = total_liabilities / equity if equity > 0 else 0`. -/
def debt_to_equity (tl equity : ℚ) : ℚ :=
  if equity > 0 then tl / equity else 0

/-- Source: `debt_to_assets = total_liabilities / total_assets if total_assets > 0 else 0`. -/
def debt_to_assets (tl ta : ℚ) : ℚ :=
  if ta > 0 then tl / ta else 0

/-- Source: `roa = net_income / total_assets if total_assets > 0 else 0`. -/
def roa (net_income ta : ℚ) : ℚ :=
  if ta > 0 then net_income / ta else 0

/-- Source: `roe = net_income / equity if equity > 0 else 0`. -/
def roe (net_income equity : ℚ) : ℚ :=
  if equity > 0 then net_income / equity else 0

/-- The `ratio_type` strings actually passed to `get_ratio_status`
("current", "quick", "leverage"). -/
inductive RatioType where
  | current
  | quick
  | leverage
deriving DecidableEq, Repr

/-- Python `get_ratio_status(value, ratio_type)` from financial_ratio_learn.py:
returns the CSS class and the status label. -/
def get_ratio_status (value : ℚ) (ratio_type : RatioType) : String × String :=
  match ratio_type with
  | RatioType.current =>
      if value ≥ 1.5 then ("green-metric", "✅ Excellent")
      else if value ≥ 1 then ("yellow-metric", "⚠️ Acceptable")
      else ("red-metric", "❌ Poor")
  | RatioType.quick =>
      if value ≥ 1 then ("green-metric", "✅ Good")
      else ("yellow-metric", "⚠️ Caution")
  | RatioType.leverage =>
      if value < 1 then ("green-metric", "✅ Conservative")
      else if value < 2 then ("yellow-metric", "⚠️ Moderate")
      else ("red-metric", "❌ Aggressive")

/-! Source file: profit_loss_learn.py -/

/-- Result record of `calculate_margins` (the 7-tuple it returns). -/
structure PnLResult where
  gross_profit : ℚ
  operating_profit : ℚ
  ebt : ℚ
  net_income : ℚ
  gross_margin : ℚ
  operating_margin : ℚ
  net_margin : ℚ
deriving DecidableEq, Repr

/-- Python `calculate_margins(revenue, cogs, opex, interest, tax)` from
profit_loss_learn.py.  Note the margins are percentages:
`(profit / revenue * 100) if revenue > 0 else 0`. -/
def calculate_margins (revenue cogs opex interest tax : ℚ) : PnLResult :=
  let gross_profit := revenue - cogs
  let operating_profit := gross_profit - opex
  let ebt := operating_profit - interest
  let net_income := ebt - tax
  { gross_profit := gross_profit
    operating_profit := operating_profit
    ebt := ebt
    net_income := net_income
    gross_margin := if revenue > 0 then gross_profit / revenue * 100 else 0
    operating_margin := if revenue > 0 then operating_profit / revenue * 100 else 0
    net_margin := if revenue > 0 then net_income / revenue * 100 else 0 }

/-- Python's `/` on floats: raises `ZeroDivisionError` when the denominator is
zero, modelled as `none`. -/
def pydiv (a b : ℚ) : Option ℚ :=
  if b = 0 then none else some (a / b)

/-- The numeric entries of the `"% of Revenue"` column of `pnl_data` in the
Learn-mode P&L (profit_loss_learn.py).  The three margin rows reuse the guarded
margins computed earlier in the page, but the COGS, OpEx, interest, EBT and tax
rows divide by `total_revenue` directly with no zero guard — modelled with
`pydiv`, so the whole column is `none` exactly when one of those raw divisions
raises. -/
def pnl_percent_column (revenue cogs opex interest tax : ℚ) : Option (List ℚ) :=
  let gross_profit := revenue - cogs
  let operating_profit := gross_profit - opex
  let ebt := operating_profit - interest
  let net_income := ebt - tax
  let gross_margin := if revenue > 0 then gross_profit / revenue * 100 else 0
  let operating_margin := if revenue > 0 then operating_profit / revenue * 100 else 0
  let net_margin := if revenue > 0 then net_income / revenue * 100 else 0
  do
    let cogsPct ← pydiv cogs revenue
    let opexPct ← pydiv opex revenue
    let interestPct ← pydiv interest revenue
    let ebtPct ← pydiv ebt revenue
    let taxPct ← pydiv tax revenue
    pure [100, cogsPct * 100, gross_margin, opexPct * 100, operating_margin,
      interestPct * 100, ebtPct * 100, taxPct * 100, net_margin]

/-- The Learn-mode balance-sheet Input Model: one field per
`st.number_input` (balance_sheet_learn.py). -/
structure BSInputs where
  cash : ℚ
  accounts_receivable : ℚ
  inventory : ℚ
  ppe : ℚ
  intangible_assets : ℚ
  accounts_payable : ℚ
  short_term_debt : ℚ
  long_term_debt : ℚ
  share_capital : ℚ
  retained_earnings : ℚ
deriving DecidableEq, Repr

/-- The documented default values of the Learn-mode balance-sheet inputs. -/
def defaultBSInputs : BSInputs :=
  { cash := 200000, accounts_receivable := 150000, inventory := 100000,
    ppe := 500000, intangible_assets := 50000, accounts_payable := 80000,
    short_term_debt := 70000, long_term_debt := 300000,
    share_capital := 300000, retained_earnings := 150000 }

/-- Names of the editable balance-sheet input fields. -/
inductive BSField where
  | cash | accountsReceivable | inventory | ppe | intangibleAssets
  | accountsPayable | shortTermDebt | longTermDebt | shareCapital | retainedEarnings
deriving DecidableEq, Repr

/-- A user edit of one field.  Every `st.number_input` in the source is created
without a `min_value` bound and without any validation code, so the stored
field value after an edit is exactly the number the user entered. -/
def applyEdit (m : BSInputs) (f : BSField) (v : ℚ) : BSInputs :=
  match f with
  | BSField.cash => { m with cash := v }
  | BSField.accountsReceivable => { m with accounts_receivable := v }
  | BSField.inventory => { m with inventory := v }
  | BSField.ppe => { m with ppe := v }
  | BSField.intangibleAssets => { m with intangible_assets := v }
  | BSField.accountsPayable => { m with accounts_payable := v }
  | BSField.shortTermDebt => { m with short_term_debt := v }
  | BSField.longTermDebt => { m with long_term_debt := v }
  | BSField.shareCapital => { m with share_capital := v }
  | BSField.retainedEarnings => { m with retained_earnings := v }

/-- Read one field of the input model. -/
def getField (m : BSInputs) (f : BSField) : ℚ :=
  match f with
  | BSField.cash => m.cash
  | BSField.accountsReceivable => m.accounts_receivable
  | BSField.inventory => m.inventory
  | BSField.ppe => m.ppe
  | BSField.intangibleAssets => m.intangible_assets
  | BSField.accountsPayable => m.accounts_payable
  | BSField.shortTermDebt => m.short_term_debt
  | BSField.longTermDebt => m.long_term_debt
  | BSField.shareCapital => m.share_capital
  | BSField.retainedEarnings => m.retained_earnings

/-- A sequence of user edits applied in order. -/
def applyEdits (m : BSInputs) : List (BSField × ℚ) → BSInputs
  | [] => m
  | (f, v) :: rest => applyEdits (applyEdit m f v) rest

/-! Scenario tables and stage selection -/

/-- Running balances of the pizza-restaurant step-by-step scenario
(balance_sheet_learn.py, Real-World Scenarios). -/
structure PizzaState where
  cash : ℚ
  equipment : ℚ
  inventory : ℚ
  debt : ℚ
  equity : ℚ
  receivables : ℚ
deriving DecidableEq, Repr

/-- The scenario starts from all-zero balances. -/
def pizzaInit : PizzaState :=
  { cash := 0, equipment := 0, inventory := 0, debt := 0, equity := 0, receivables := 0 }

/-- Step 1: initial investment — cash +200000, equity +200000. -/
def pizzaStep1 (s : PizzaState) : PizzaState :=
  { s with cash := s.cash + 200000, equity := s.equity + 200000 }

/-- Step 2: buy equipment — cash -100000, equipment +100000. -/
def pizzaStep2 (s : PizzaState) : PizzaState :=
  { s with cash := s.cash - 100000, equipment := s.equipment + 100000 }

/-- Step 3: take out a loan — cash +150000, debt +150000. -/
def pizzaStep3 (s : PizzaState) : PizzaState :=
  { s with cash := s.cash + 150000, debt := s.debt + 150000 }

/-- Step 4: buy inventory — cash -50000, inventory +50000. -/
def pizzaStep4 (s : PizzaState) : PizzaState :=
  { s with cash := s.cash - 50000, inventory := s.inventory + 50000 }

/-- Step 5: sales on credit — receivables +30000, equity +30000. -/
def pizzaStep5 (s : PizzaState) : PizzaState :=
  { s with receivables := s.receivables + 30000, equity := s.equity + 30000 }

/-- Step 6: pay off some debt — cash -50000, debt -50000. -/
def pizzaStep6 (s : PizzaState) : PizzaState :=
  { s with cash := s.cash - 50000, debt := s.debt - 50000 }

/-- Direct translation of the pizza scenario's render: starting from zero
balances, each `if step >= k:` block applies transaction `k`.  This is what
selecting slider value `step` computes; the script re-runs it from scratch on
every selection, so no state survives between selections. -/
def pizzaRender (step : ℕ) : PizzaState :=
  let s1 := if step ≥ 1 then pizzaStep1 pizzaInit else pizzaInit
  let s2 := if step ≥ 2 then pizzaStep2 s1 else s1
  let s3 := if step ≥ 3 then pizzaStep3 s2 else s2
  let s4 := if step ≥ 4 then pizzaStep4 s3 else s3
  let s5 := if step ≥ 5 then pizzaStep5 s4 else s4
  if step ≥ 6 then pizzaStep6 s5 else s5

/-- The scenario's six transactions, in narrative order. -/
def pizzaSteps : List (PizzaState → PizzaState) :=
  [pizzaStep1, pizzaStep2, pizzaStep3, pizzaStep4, pizzaStep5, pizzaStep6]

/-- Visiting stages 1..k in order: fold of the first k transaction deltas,
recomputed from stage 1. -/
def pizzaSequential (k : ℕ) : PizzaState :=
  (pizzaSteps.take k).foldl (fun s f => f s) pizzaInit

/-- Table `monthly_data[m]["revenue"]` of the pizzeria first-year journey
(profit_loss_learn.py).  The month slider ranges over 1..12; other indices are
unreachable and mapped to 0. -/
def monthly_revenue : ℕ → ℚ
  | 1 => 15000 | 2 => 22000 | 3 => 30000 | 4 => 35000 | 5 => 40000 | 6 => 45000
  | 7 => 42000 | 8 => 38000 | 9 => 48000 | 10 => 44000 | 11 => 52000 | 12 => 55000
  | _ => 0

/-- Table `monthly_data[m]["cogs"]`. -/
def monthly_cogs : ℕ → ℚ
  | 1 => 9000 | 2 => 13000 | 3 => 17000 | 4 => 19000 | 5 => 22000 | 6 => 24000
  | 7 => 23000 | 8 => 21000 | 9 => 26000 | 10 => 24000 | 11 => 28000 | 12 => 30000
  | _ => 0

/-- Table `monthly_data[m]["opex"]`. -/
def monthly_opex : ℕ → ℚ
  | 1 => 18000 | 2 => 15000 | 3 => 14000 | 4 => 13000 | 5 => 13000 | 6 => 14000
  | 7 => 13500 | 8 => 13000 | 9 => 14000 | 10 => 13500 | 11 => 15000 | 12 => 16000
  | _ => 0

/-- Source: `cumulative_revenue = sum(monthly_data[m]["revenue"] for m in range(1, month+1))`:
the direct stage-`month` computation. -/
def cumulative_revenue (month : ℕ) : ℚ :=
  ((List.range month).map (fun i => monthly_revenue (i + 1))).sum

/-- Source: `cumulative_cogs`, computed the same way. -/
def cumulative_cogs (month : ℕ) : ℚ :=
  ((List.range month).map (fun i => monthly_cogs (i + 1))).sum

/-- Source: `cumulative_opex`, computed the same way. -/
def cumulative_opex (month : ℕ) : ℚ :=
  ((List.range month).map (fun i => monthly_opex (i + 1))).sum

/-- Source: `cumulative_ebt = cumulative_revenue - cumulative_cogs - cumulative_opex -
cumulative_interest`, where `cumulative_interest = 2000 * month` (interest is a
constant 2000 per month). -/
def cumulative_ebt (month : ℕ) : ℚ :=
  cumulative_revenue month - cumulative_cogs month - cumulative_opex month -
    2000 * month

/-- Source: `cumulative_tax = max(0, cumulative_ebt * 0.2)`. -/
def cumulative_tax (month : ℕ) : ℚ :=
  max 0 (cumulative_ebt month * 0.2)

/-- Source: `cumulative_profit = cumulative_ebt - cumulative_tax`. -/
def cumulative_profit (month : ℕ) : ℚ :=
  cumulative_ebt month - cumulative_tax month

/-- Sequential year-to-date revenue: visit months 1..m in order, adding each
month's revenue to the running total. -/
def ytdSeqRevenue : ℕ → ℚ
  | 0 => 0
  | m + 1 => ytdSeqRevenue m + monthly_revenue (m + 1)

/-- Sequential year-to-date COGS. -/
def ytdSeqCogs : ℕ → ℚ
  | 0 => 0
  | m + 1 => ytdSeqCogs m + monthly_cogs (m + 1)

/-- Sequential year-to-date OpEx. -/
def ytdSeqOpex : ℕ → ℚ
  | 0 => 0
  | m + 1 => ytdSeqOpex m + monthly_opex (m + 1)

/-- Year-to-date profit computed from the sequential accumulators, applying
the same tax rule to the accumulated EBT. -/
def cumulative_profit_seq (month : ℕ) : ℚ :=
  let ebt := ytdSeqRevenue month - ytdSeqCogs month - ytdSeqOpex month - 2000 * month
  ebt - max 0 (ebt * 0.2)

end FinRatio

namespace FinRatio

/-- C1 (counterexample): at the documented defaults the delta is NOT 0 and the
sheet is NOT balanced: assets total 1000000 while liabilities + equity total
only 900000, so the delta is 100000 and `check_balance` is `false`. -/
theorem balance_sheet_defaults_not_balanced :
    total_assets 200000 150000 100000 500000 50000 -
      (total_liabilities 80000 70000 300000 + total_equity 300000 150000) ≠ 0 ∧
    check_balance (total_assets 200000 150000 100000 500000 50000)
      (total_liabilities 80000 70000 300000) (total_equity 300000 150000) = false := by
  constructor
  · norm_num [total_assets, total_liabilities, total_equity]
  · norm_num [check_balance, total_assets, total_liabilities, total_equity]

/-- C1 (amended): the balance-sheet derivation computes the three totals as the
stated sums and is balanced iff `|totalAssets - (totalLiabilities +
totalEquity)| < 1`; at the documented defaults the totals are 1000000, 450000,
450000, so the delta is 100000 and the sheet is not balanced. -/
theorem balance_sheet_derivation_correct :
    (∀ c ar inv ppe ia : ℚ, total_assets c ar inv ppe ia = c + ar + inv + ppe + ia) ∧
    (∀ ap std ltd : ℚ, total_liabilities ap std ltd = ap + std + ltd) ∧
    (∀ sc re : ℚ, total_equity sc re = sc + re) ∧
    (∀ a l e : ℚ, check_balance a l e = true ↔ |a - (l + e)| < 1) ∧
    total_assets 200000 150000 100000 500000 50000 = 1000000 ∧
    total_liabilities 80000 70000 300000 = 450000 ∧
    total_equity 300000 150000 = 450000 ∧
    total_assets 200000 150000 100000 500000 50000 -
      (total_liabilities 80000 70000 300000 + total_equity 300000 150000) = 100000 ∧
    check_balance (total_assets 200000 150000 100000 500000 50000)
      (total_liabilities 80000 70000 300000) (total_equity 300000 150000) = false := by
  refine ⟨fun _ _ _ _ _ => rfl, fun _ _ _ => rfl, fun _ _ => rfl, ?_, by norm_num [total_assets],
    by norm_num [total_liabilities], by norm_num [total_equity],
    by norm_num [total_assets, total_liabilities, total_equity],
    by norm_num [check_balance, total_assets, total_liabilities, total_equity]⟩
  intro a l e
  simp [check_balance]

/-- C2: each of the six ratios returns exactly 0 when its denominator is 0,
for any numerator value. -/
theorem ratios_zero_denominator_safe :
    ∀ ca inv tl ni : ℚ,
      current_ratio ca 0 = 0 ∧ quick_ratio ca inv 0 = 0 ∧
      debt_to_equity tl 0 = 0 ∧ debt_to_assets tl 0 = 0 ∧
      roa ni 0 = 0 ∧ roe ni 0 = 0 := by
  intro ca inv tl ni
  refine ⟨?_, ?_, ?_, ?_, ?_, ?_⟩ <;>
    simp [current_ratio, quick_ratio, debt_to_equity, debt_to_assets, roa, roe]

/-- C10: every ratio guard tests `denominator > 0`, so a strictly negative
denominator also yields exactly 0 rather than the negative quotient. -/
theorem ratios_negative_denominator_zero (ca inv tl ni cl eq ta : ℚ)
    (hcl : cl < 0) (heq : eq < 0) (hta : ta < 0) :
    current_ratio ca cl = 0 ∧ quick_ratio ca inv cl = 0 ∧
    debt_to_equity tl eq = 0 ∧ debt_to_assets tl ta = 0 ∧
    roa ni ta = 0 ∧ roe ni eq = 0 := by
  refine ⟨?_, ?_, ?_, ?_, ?_, ?_⟩ <;>
    simp [current_ratio, quick_ratio, debt_to_equity, debt_to_assets, roa, roe,
      not_lt.mpr hcl.le, not_lt.mpr heq.le, not_lt.mpr hta.le]

/-- Witness for C10 at concrete negative denominators. -/
theorem ratios_negative_denominator_zero_witness :
    current_ratio 500 (-10) = 0 ∧ quick_ratio 500 100 (-10) = 0 ∧
    debt_to_equity 700 (-20) = 0 ∧ debt_to_assets 700 (-30) = 0 ∧
    roa 50 (-30) = 0 ∧ roe 50 (-20) = 0 :=
  ratios_negative_denominator_zero 500 100 700 50 (-10) (-20) (-30)
    (by norm_num) (by norm_num) (by norm_num)

/-- C6: the current-ratio status tiers are `≥ 1.5` excellent, `[1, 1.5)`
acceptable, `< 1` poor, and the leverage (debt-to-equity) tiers are `< 1`
conservative, `[1, 2)` moderate, `≥ 2` aggressive, for every ratio value. -/
theorem ratio_status_thresholds :
    ∀ v : ℚ,
      ((3/2 : ℚ) ≤ v → get_ratio_status v RatioType.current = ("green-metric", "✅ Excellent")) ∧
      (1 ≤ v → v < 3/2 → get_ratio_status v RatioType.current = ("yellow-metric", "⚠️ Acceptable")) ∧
      (v < 1 → get_ratio_status v RatioType.current = ("red-metric", "❌ Poor")) ∧
      (v < 1 → get_ratio_status v RatioType.leverage = ("green-metric", "✅ Conservative")) ∧
      (1 ≤ v → v < 2 → get_ratio_status v RatioType.leverage = ("yellow-metric", "⚠️ Moderate")) ∧
      (2 ≤ v → get_ratio_status v RatioType.leverage = ("red-metric", "❌ Aggressive")) := by
  intro v
  have h32 : (1.5 : ℚ) = 3/2 := by norm_num
  refine ⟨fun h => ?_, fun h1 h2 => ?_, fun h => ?_, fun h => ?_, fun h1 h2 => ?_, fun h => ?_⟩
  · simp [get_ratio_status, h32, h]
  · simp [get_ratio_status, h32, not_le.mpr h2, h1]
  · have h' : v < 3/2 := lt_trans h (by norm_num)
    simp [get_ratio_status, h32, not_le.mpr h', not_le.mpr h]
  · simp [get_ratio_status, h]
  · simp [get_ratio_status, not_lt.mpr h1, h2]
  · have h' : (1 : ℚ) ≤ v := le_trans (by norm_num) h
    simp [get_ratio_status, not_lt.mpr h', not_lt.mpr h]

/-- Witness for C6: one value in each tier, for both ratio kinds. -/
theorem ratio_status_thresholds_witness :
    get_ratio_status 2 RatioType.current = ("green-metric", "✅ Excellent") ∧
    get_ratio_status (6/5) RatioType.current = ("yellow-metric", "⚠️ Acceptable") ∧
    get_ratio_status (1/2) RatioType.current = ("red-metric", "❌ Poor") ∧
    get_ratio_status (1/2) RatioType.leverage = ("green-metric", "✅ Conservative") ∧
    get_ratio_status (6/5) RatioType.leverage = ("yellow-metric", "⚠️ Moderate") ∧
    get_ratio_status 2 RatioType.leverage = ("red-metric", "❌ Aggressive") :=
  ⟨(ratio_status_thresholds 2).1 (by norm_num),
   (ratio_status_thresholds (6/5)).2.1 (by norm_num) (by norm_num),
   (ratio_status_thresholds (1/2)).2.2.1 (by norm_num),
   (ratio_status_thresholds (1/2)).2.2.2.1 (by norm_num),
   (ratio_status_thresholds (6/5)).2.2.2.2.1 (by norm_num) (by norm_num),
   (ratio_status_thresholds 2).2.2.2.2.2 (by norm_num)⟩

/-- C3 (counterexample): at the documented P&L defaults the gross margin
computed by `calculate_margins` is `140/3` (i.e. 46.67, a percentage), not the
plain quotient `grossProfit / revenue = 7/15`, so "each margin equals the
corresponding profit level divided by revenue" is false as stated. -/
theorem margins_are_percentages_not_quotients :
    (calculate_margins 1500000 800000 300000 50000 100000).gross_margin ≠
      (calculate_margins 1500000 800000 300000 50000 100000).gross_profit / 1500000 := by
  norm_num [calculate_margins]

/-- C3 (amended): `calculate_margins` computes `grossProfit = revenue - cogs`,
`operatingProfit = grossProfit - opex`, `ebt = operatingProfit - interest`,
`netIncome = ebt - tax`, and each margin is the corresponding profit level
divided by revenue **times 100** (a percentage) when revenue is positive, with
every margin equal to 0 when revenue is 0. -/
theorem calculate_margins_correct (revenue cogs opex interest tax : ℚ) :
    (calculate_margins revenue cogs opex interest tax).gross_profit = revenue - cogs ∧
    (calculate_margins revenue cogs opex interest tax).operating_profit =
      revenue - cogs - opex ∧
    (calculate_margins revenue cogs opex interest tax).ebt =
      revenue - cogs - opex - interest ∧
    (calculate_margins revenue cogs opex interest tax).net_income =
      revenue - cogs - opex - interest - tax ∧
    (0 < revenue →
      (calculate_margins revenue cogs opex interest tax).gross_margin =
        (revenue - cogs) / revenue * 100 ∧
      (calculate_margins revenue cogs opex interest tax).operating_margin =
        (revenue - cogs - opex) / revenue * 100 ∧
      (calculate_margins revenue cogs opex interest tax).net_margin =
        (revenue - cogs - opex - interest - tax) / revenue * 100) ∧
    (revenue = 0 →
      (calculate_margins revenue cogs opex interest tax).gross_margin = 0 ∧
      (calculate_margins revenue cogs opex interest tax).operating_margin = 0 ∧
      (calculate_margins revenue cogs opex interest tax).net_margin = 0) := by
  refine ⟨rfl, by simp [calculate_margins]; try ring, by simp [calculate_margins]; try ring,
    by simp [calculate_margins]; try ring, fun h => ?_, fun h => ?_⟩
  · refine ⟨?_, ?_, ?_⟩ <;> simp [calculate_margins, h]
  · subst h
    refine ⟨?_, ?_, ?_⟩ <;> simp [calculate_margins]

/-- Witness for C3 at the documented defaults (positive revenue) and at the
zero-revenue edge case. -/
theorem calculate_margins_correct_witness :
    ((calculate_margins 1500000 800000 300000 50000 100000).gross_margin =
        (1500000 - 800000) / 1500000 * 100 ∧
      (calculate_margins 1500000 800000 300000 50000 100000).operating_margin =
        (1500000 - 800000 - 300000) / 1500000 * 100 ∧
      (calculate_margins 1500000 800000 300000 50000 100000).net_margin =
        (1500000 - 800000 - 300000 - 50000 - 100000) / 1500000 * 100) ∧
    ((calculate_margins 0 0 0 0 0).gross_margin = 0 ∧
      (calculate_margins 0 0 0 0 0).operating_margin = 0 ∧
      (calculate_margins 0 0 0 0 0).net_margin = 0) :=
  ⟨(calculate_margins_correct 1500000 800000 300000 50000 100000).2.2.2.2.1 (by norm_num),
   (calculate_margins_correct 0 0 0 0 0).2.2.2.2.2 rfl⟩

/-- C4: the code is wrong here — the Learn-mode P&L table's "% of Revenue"
column divides by `total_revenue` with no zero guard, so the valid zero-revenue
input makes the derivation-to-display path raise `ZeroDivisionError`
(modelled: the column evaluates to `none`). -/
theorem pnl_percent_column_zero_revenue_fails :
    pnl_percent_column 0 0 0 0 0 = none ∧
    pnl_percent_column 0 300000 300000 30000 50000 = none := by
  constructor <;> rfl

/-- C5 (counterexample): editing `cash` to `-5000` is accepted verbatim — no
`InvalidInput` rejection and no clamping exist in the source — so after a
one-edit sequence the field is negative. -/
theorem negative_edit_accepted :
    getField (applyEdits defaultBSInputs [(BSField.cash, -5000)]) BSField.cash = -5000 ∧
    ((-5000 : ℚ) < 0) := by
  constructor
  · rfl
  · norm_num

/-- C5 (amended): the input fields perform no validation at all: an edit stores
the entered value unchanged for every field and every value, negative values
included, so a field can be negative after a user edit. -/
theorem edits_stored_unvalidated :
    ∀ (m : BSInputs) (f : BSField) (v : ℚ), getField (applyEdit m f v) f = v := by
  intro m f v
  cases f <;> rfl

/-- C7: when the delta is nonzero, `get_balance_tips` produces a non-empty
suggestion list whose remediation levers are exactly the three for the delta's
sign, each carrying the magnitude `|delta|`; when the delta is zero it produces
no suggestions. -/
theorem balance_tips_levers (a l e : ℚ) :
    (a - (l + e) ≠ 0 → get_balance_tips a l e ≠ []) ∧
    (0 < a - (l + e) →
      leverTips (get_balance_tips a l e) =
        [Tip.addToLiabilities |a - (l + e)|, Tip.addToEquity |a - (l + e)|,
         Tip.reduceAssets |a - (l + e)|]) ∧
    (a - (l + e) < 0 →
      leverTips (get_balance_tips a l e) =
        [Tip.addToAssets |a - (l + e)|, Tip.reduceLiabilities |a - (l + e)|,
         Tip.reduceEquity |a - (l + e)|]) ∧
    (a - (l + e) = 0 → get_balance_tips a l e = []) := by
  refine ⟨fun hne => ?_, fun h => ?_, fun h => ?_, fun h => ?_⟩
  · rcases lt_trichotomy (a - (l + e)) 0 with h | h | h
    · simp [get_balance_tips, not_lt.mpr h.le, h]
    · exact absurd h hne
    · simp [get_balance_tips, h]
  · have key : get_balance_tips a l e =
        [Tip.assetsHigher |a - (l + e)|, Tip.toBalanceHeader,
         Tip.addToLiabilities |a - (l + e)|, Tip.addToEquity |a - (l + e)|,
         Tip.reduceAssets |a - (l + e)|, Tip.combination] := by
      simp [get_balance_tips, h]
    rw [key]
    rfl
  · have key : get_balance_tips a l e =
        [Tip.liabEquityHigher |a - (l + e)|, Tip.toBalanceHeader,
         Tip.addToAssets |a - (l + e)|, Tip.reduceLiabilities |a - (l + e)|,
         Tip.reduceEquity |a - (l + e)|, Tip.combination] := by
      simp [get_balance_tips, not_lt.mpr h.le, h]
    rw [key]
    rfl
  · simp [get_balance_tips, h]

/-- Witness for C7: a positive-delta, a negative-delta and a zero-delta
balance sheet. -/
theorem balance_tips_levers_witness :
    get_balance_tips 300 100 100 ≠ [] ∧
    leverTips (get_balance_tips 300 100 100) =
      [Tip.addToLiabilities 100, Tip.addToEquity 100, Tip.reduceAssets 100] ∧
    leverTips (get_balance_tips 100 100 100) =
      [Tip.addToAssets 100, Tip.reduceLiabilities 100, Tip.reduceEquity 100] ∧
    get_balance_tips 200 100 100 = [] := by
  refine ⟨(balance_tips_levers 300 100 100).1 (by norm_num), ?_, ?_,
    (balance_tips_levers 200 100 100).2.2.2 (by norm_num)⟩
  · have habs : |(300 : ℚ) - (100 + 100)| = 100 := by norm_num
    have h := (balance_tips_levers 300 100 100).2.1 (by norm_num)
    rw [habs] at h
    exact h
  · have habs : |(100 : ℚ) - (100 + 100)| = 100 := by norm_num
    have h := (balance_tips_levers 100 100 100).2.2.1 (by norm_num)
    rw [habs] at h
    exact h

/-- Sum over `List.range (n+1)` splits off the last term. -/
theorem list_range_map_sum_succ (f : ℕ → ℚ) (n : ℕ) :
    ((List.range (n + 1)).map f).sum = ((List.range n).map f).sum + f n := by
  simp [List.range_succ]

/-- C8: stage-jump determinism.  For the incremental-delta pizza scenario,
selecting stage `k` directly renders exactly the fold of the first `k`
transaction deltas recomputed from stage 1 (the render is a pure function of
`k`, so no hidden state is carried between selections).  For the monthly
pizzeria journey, the cumulative metrics computed directly at month `m` equal
the month-by-month sequential accumulation through months `1..m`. -/
theorem stage_jump_deterministic :
    (∀ k : ℕ, 1 ≤ k → k ≤ 6 → pizzaRender k = pizzaSequential k) ∧
    (∀ m : ℕ, cumulative_revenue m = ytdSeqRevenue m ∧
      cumulative_cogs m = ytdSeqCogs m ∧ cumulative_opex m = ytdSeqOpex m ∧
      cumulative_profit m = cumulative_profit_seq m) := by
  have hr : ∀ n, cumulative_revenue n = ytdSeqRevenue n := by
    intro n
    induction n with
    | zero => rfl
    | succ n ih =>
      rw [cumulative_revenue, list_range_map_sum_succ, ← cumulative_revenue, ih]
      simp [ytdSeqRevenue]
  have hc : ∀ n, cumulative_cogs n = ytdSeqCogs n := by
    intro n
    induction n with
    | zero => rfl
    | succ n ih =>
      rw [cumulative_cogs, list_range_map_sum_succ, ← cumulative_cogs, ih]
      simp [ytdSeqCogs]
  have ho : ∀ n, cumulative_opex n = ytdSeqOpex n := by
    intro n
    induction n with
    | zero => rfl
    | succ n ih =>
      rw [cumulative_opex, list_range_map_sum_succ, ← cumulative_opex, ih]
      simp [ytdSeqOpex]
  constructor
  · intro k h1 h6
    interval_cases k <;> rfl
  · intro m
    have he : cumulative_ebt m =
        ytdSeqRevenue m - ytdSeqCogs m - ytdSeqOpex m - 2000 * m := by
      rw [cumulative_ebt, hr, hc, ho]
    exact ⟨hr m, hc m, ho m, by
      simp [cumulative_profit, cumulative_tax, cumulative_profit_seq, he]⟩

/-- Witness for C8: stage 3 of the pizza journey and month 5 of the pizzeria
year. -/
theorem stage_jump_deterministic_witness :
    pizzaRender 3 = pizzaSequential 3 ∧ cumulative_profit 5 = cumulative_profit_seq 5 :=
  ⟨stage_jump_deterministic.1 3 (by norm_num) (by norm_num),
   (stage_jump_deterministic.2 5).2.2.2⟩

/-- C9: the balance identity is an invariant of every scripted pizza
transaction: at every step `k ∈ [1,6]` the accumulated totals satisfy
`cash + equipment + inventory + receivables = debt + equity` exactly, so
`check_balance` succeeds at every step. -/
theorem pizza_balance_invariant :
    ∀ k : ℕ, 1 ≤ k → k ≤ 6 →
      (pizzaRender k).cash + (pizzaRender k).equipment + (pizzaRender k).inventory +
          (pizzaRender k).receivables =
        (pizzaRender k).debt + (pizzaRender k).equity ∧
      check_balance
        ((pizzaRender k).cash + (pizzaRender k).equipment + (pizzaRender k).inventory +
          (pizzaRender k).receivables)
        (pizzaRender k).debt (pizzaRender k).equity = true := by
  intro k h1 h6
  interval_cases k <;>
    exact ⟨by norm_num [pizzaRender, pizzaInit, pizzaStep1, pizzaStep2, pizzaStep3,
        pizzaStep4, pizzaStep5, pizzaStep6],
      by norm_num [check_balance, pizzaRender, pizzaInit, pizzaStep1, pizzaStep2,
        pizzaStep3, pizzaStep4, pizzaStep5, pizzaStep6]⟩

/-- Witness for C9 at step 4. -/
theorem pizza_balance_invariant_witness :
    (pizzaRender 4).cash + (pizzaRender 4).equipment + (pizzaRender 4).inventory +
        (pizzaRender 4).receivables =
      (pizzaRender 4).debt + (pizzaRender 4).equity ∧
    check_balance
      ((pizzaRender 4).cash + (pizzaRender 4).equipment + (pizzaRender 4).inventory +
        (pizzaRender 4).receivables)
      (pizzaRender 4).debt (pizzaRender 4).equity = true :=
  pizza_balance_invariant 4 (by norm_num) (by norm_num)

end FinRatio
